import Mathlib

/-!
Shallow embedding of the hardened user-registry service in `app_latest/`
(`routes.py`, `services.py`, `database.py`, `__init__.py`, `config.py`),
together with proofs of the specified properties.

Python dynamic values are modelled by the inductive `PyVal`; the SQLite
store is modelled by an explicit `DB` state (list of table names, rows of
the `users` table, the autoincrement counter, and a reachability flag);
Python exceptions are modelled by `Except` with the error taxonomy `PyErr`.
-/

namespace SecureApi

/-- Dynamic Python values that can reach the validated entry points:
`None`, strings, integers and booleans (in Python, `bool` is a subclass
of `int`). -/
inductive PyVal where
  | pynone : PyVal
  | str : String → PyVal
  | int : Int → PyVal
  | bool : Bool → PyVal
deriving DecidableEq, Repr

/-- Python truth-value test `not x` is true exactly on falsy values:
`None`, the empty string, zero, `False`. -/
def pyFalsy : PyVal → Bool
  | .pynone => true
  | .str s => s = ""
  | .int n => n = 0
  | .bool b => !b

/-- Models `isinstance(x, str)`. -/
def PyVal.isStr : PyVal → Bool
  | .str _ => true
  | _ => false

/-- Models `isinstance(x, int)`: true for `int` and for `bool`, because
Python's `bool` is a subclass of `int`. -/
def PyVal.isIntLike : PyVal → Bool
  | .int _ => true
  | .bool _ => true
  | _ => false

/-- Numeric value of an int-like Python value (`True == 1`, `False == 0`);
zero on the other constructors, where the code never reads it. -/
def PyVal.toInt : PyVal → Int
  | .int n => n
  | .bool b => if b then 1 else 0
  | _ => 0

/-- Underlying string of a `str` value; empty on the other constructors,
where the code never reads it. -/
def PyVal.toStr : PyVal → String
  | .str s => s
  | _ => ""

/-- Characters removed by Python's `str.strip()`: the ASCII whitespace
class (space, tab, newline, carriage return, vertical tab, form feed). -/
def isPySpace (c : Char) : Bool :=
  c == ' ' || c == '\t' || c == '\n' || c == '\r' ||
    c == Char.ofNat 11 || c == Char.ofNat 12

/-- Models Python's `str.strip()`: drop leading and trailing whitespace. -/
def pyStrip (s : String) : String :=
  ⟨((s.data.dropWhile isPySpace).reverse.dropWhile isPySpace).reverse⟩

/-- Models `any(ord(c) < 32 and c not in '\t\n\r' for c in name)` from
`validate_name` in `routes.py`. -/
def hasBadControl (s : String) : Bool :=
  s.data.any (fun c => decide (c.toNat < 32) && !(c == '\t' || c == '\n' || c == '\r'))

/-- The validation-error taxonomy of the spec (§7); `validate_name` in
`routes.py` reports each subkind through a distinct message string:
`MissingValue` ↦ "Name is required", `WrongType` ↦ "Name must be a string",
`EmptyAfterTrim` ↦ "Name cannot be empty", `TooLong` ↦ "Name must be no
longer than N characters", `InvalidCharacters` ↦ "Name contains invalid
characters". -/
inductive ValidationError where
  | missingValue : ValidationError
  | wrongType : ValidationError
  | emptyAfterTrim : ValidationError
  | tooLong : ValidationError
  | invalidCharacters : ValidationError
deriving DecidableEq, Repr

/-- Embedding of `validate_name(name, max_length)` from
`app_latest/routes.py` (lines 20-49), with the returned
`(False, message)` pairs mapped to their `ValidationError` subkind and
`(True, None)` mapped to success carrying the trimmed name.  The first
guard is Python's `if not name`, i.e. the truth-value test. -/
def validate_name (name : PyVal) (maxLength : Nat) : Except ValidationError String :=
  if pyFalsy name then .error .missingValue
  else if !name.isStr then .error .wrongType
  else
    let s := pyStrip name.toStr
    if s = "" then .error .emptyAfterTrim
    else if maxLength < s.length then .error .tooLong
    else if hasBadControl s then .error .invalidCharacters
    else .ok s

/-- Modelled from the spec (claim wording, original): rule 1 fires only
when the raw value is null or the empty string ("absent, null, or empty
before trimming"); the remaining rules follow the code. Used to compare
the claimed rule order against `validate_name`. -/
def validateNameSpecOrig (name : PyVal) (maxLength : Nat) : Except ValidationError String :=
  if name = PyVal.pynone ∨ name = PyVal.str "" then .error .missingValue
  else if !name.isStr then .error .wrongType
  else
    let s := pyStrip name.toStr
    if s = "" then .error .emptyAfterTrim
    else if maxLength < s.length then .error .tooLong
    else if hasBadControl s then .error .invalidCharacters
    else .ok s

/-- A character the validation rules reject: codepoint below 32 and not
tab (9), newline (10) or carriage return (13). -/
def isControlBad (c : Char) : Prop :=
  c.toNat < 32 ∧ c ≠ Char.ofNat 9 ∧ c ≠ Char.ofNat 10 ∧ c ≠ Char.ofNat 13

instance (c : Char) : Decidable (isControlBad c) := by
  unfold isControlBad
  exact inferInstance

/-- Modelled from the spec (claim wording, amended): rule 1 fires on every
falsy value (absent/null/empty, and also zero or `False`, which Python's
truth-value test treats the same way); rules 2-5 as the claim states them,
with rule 5 phrased as an existential over the trimmed string's
characters. -/
def validateNameSpecAmended (name : PyVal) (maxLength : Nat) : Except ValidationError String :=
  if pyFalsy name then .error .missingValue
  else if !name.isStr then .error .wrongType
  else
    let s := pyStrip name.toStr
    if s = "" then .error .emptyAfterTrim
    else if maxLength < s.length then .error .tooLong
    else if ∃ c ∈ s.data, isControlBad c then .error .invalidCharacters
    else .ok s

/-- Python exceptions relevant to the embedded code: `ValueError` raised by
`add_user`, `sqlite3.Error` (connectivity, missing table) as `storeError`,
`sqlite3.IntegrityError`, and an arbitrary error raised by the caller's
logic inside a `with get_db_connection(...)` block, tagged so re-raising
can be observed. -/
inductive PyErr where
  | valueError : PyErr
  | storeError : PyErr
  | integrityError : PyErr
  | callerError : Nat → PyErr
deriving DecidableEq, Repr

/-- A row of the `users` table that the operations touch: the
autoincrement `id` and the `name` column (the unused `password_hash` and
the store-defaulted `created_at` play no part in any claim). -/
structure UserRow where
  id : Int
  name : String
deriving DecidableEq, Repr

/-- State of the SQLite store at `database_path`: the names of existing
tables, the rows of the `users` table, the next autoincrement id, and
whether `sqlite3.connect` succeeds (false models an unreachable store or
unwritable path). -/
structure DB where
  tables : List String
  rows : List UserRow
  nextId : Int
  connectOk : Bool
deriving DecidableEq, Repr

/-- Outcome of one `with get_db_connection(path) as conn:` invocation: the
value produced or exception propagated, the store state when the handle is
released, and whether every exit path released the handle (ran the
`finally` block with no live connection remaining). -/
structure ConnOutcome (α : Type) where
  result : Except PyErr α
  db : DB
  released : Bool
deriving Repr

/-- Embedding of the context manager `get_db_connection(database_path)`
from `app_latest/database.py` (lines 16-48).  The protected block is a
function from the store state to a result and an updated (uncommitted)
store state.  On success the writes are committed (the block's state is
kept); on any exception the transaction is rolled back (the state reverts
to the state at connect) and the exception re-raised; the `finally` block
closes the handle on every path.  If `sqlite3.connect` itself fails the
error propagates with no connection left open. -/
def get_db_connection {α : Type} (db : DB) (block : DB → Except PyErr (α × DB)) :
    ConnOutcome α :=
  if db.connectOk then
    match block db with
    | .ok (a, db') => ⟨.ok a, db', true⟩
    | .error e => ⟨.error e, db, true⟩
  else ⟨.error .storeError, db, true⟩

/-- The body of `add_user`'s `with` block: the parameter-bound
`INSERT INTO users (name) VALUES (?)` with the stripped name, returning
`cursor.lastrowid`.  Parameter binding passes the name through as opaque
data, so the row stores it verbatim; if the `users` table is missing the
statement raises `sqlite3.OperationalError` (a `sqlite3.Error`). -/
def insertUser (name : String) (db : DB) : Except PyErr (Int × DB) :=
  if "users" ∈ db.tables then
    .ok (db.nextId,
      { db with rows := db.rows ++ [⟨db.nextId, pyStrip name⟩], nextId := db.nextId + 1 })
  else .error .storeError

/-- Embedding of `add_user(name, database_path)` from
`app_latest/services.py` (lines 22-55).  Returns the raised-or-returned
value, the store state afterwards, and whether a connection was opened.
The guard is `if not name or not isinstance(name, str): raise ValueError`,
checked before any connection is opened. -/
def add_user (name : PyVal) (db : DB) : Except PyErr Int × DB × Bool :=
  if pyFalsy name || !name.isStr then (.error .valueError, db, false)
  else
    let out := get_db_connection db (insertUser name.toStr)
    (out.result, out.db, true)

/-- The body of `get_user`'s `with` block: the parameter-bound
`SELECT id, name FROM users WHERE id = ?` followed by `fetchone()`, the
row mapped to the dictionary `{"id": ..., "name": ...}`.  A missing
`users` table raises a `sqlite3.Error`. -/
def selectUserById (n : Int) (db : DB) : Except PyErr (Option UserRow × DB) :=
  if "users" ∈ db.tables then
    .ok ((db.rows.find? (fun r => r.id == n)).map (fun r => ⟨r.id, r.name⟩), db)
  else .error .storeError

/-- Embedding of `get_user(user_id, database_path)` from
`app_latest/services.py` (lines 58-87).  Returns the value
raised-or-returned and whether the store was accessed.  The guard
`if not isinstance(user_id, int) or user_id <= 0: return None` short-circuits
before any connection is opened. -/
def get_user (user_id : PyVal) (db : DB) : Except PyErr (Option UserRow) × Bool :=
  if !user_id.isIntLike || user_id.toInt ≤ 0 then (.ok Option.none, false)
  else
    let out := get_db_connection db (selectUserById user_id.toInt)
    (out.result, true)

/-- The body of `init_db`'s `with` block:
`CREATE TABLE IF NOT EXISTS users (...)`, which adds the table name only
when it is absent and touches nothing else. -/
def createUsersTable (db : DB) : Except PyErr (Unit × DB) :=
  .ok ((), if "users" ∈ db.tables then db else { db with tables := db.tables ++ ["users"] })

/-- Embedding of `init_db(database_path)` from `app_latest/database.py`
(lines 51-75): runs the schema statement inside `get_db_connection` and
propagates any `sqlite3.Error`. -/
def init_db (db : DB) : Except PyErr DB :=
  let out := get_db_connection db createUsersTable
  match out.result with
  | .ok _ => .ok out.db
  | .error e => .error e

/-- The configuration fields of `get_config()` in `app_latest/config.py`
that `create_app` reads. -/
structure AppConfig where
  debug : Bool
  initDbOnStart : Bool
deriving DecidableEq, Repr

/-- A configured Flask application: its configuration and whether the api
blueprint was registered. -/
structure App where
  config : AppConfig
  blueprintRegistered : Bool
deriving DecidableEq, Repr

/-- Embedding of `create_app()` from `app_latest/__init__.py` (lines
17-49): when `INIT_DB_ON_START` is set it runs `init_db`, and on failure
re-raises unless `DEBUG` is set, in which case the error is logged and
startup continues; finally the blueprint is registered and the app
returned, together with the resulting store state. -/
def create_app (cfg : AppConfig) (db : DB) : Except PyErr (App × DB) :=
  if cfg.initDbOnStart then
    match init_db db with
    | .ok db' => .ok (⟨cfg, true⟩, db')
    | .error e => if !cfg.debug then .error e else .ok (⟨cfg, true⟩, db)
  else .ok (⟨cfg, true⟩, db)

/-- Embedding of `set_user_active(user_id)` from `app_latest/services.py`
(lines 122-135) as the transformation it performs, under the lock, on the
`_active_users` list: append if absent, then pop index 0 if the length
exceeds 5. -/
def set_user_active (uid : Int) (l : List Int) : List Int :=
  let l1 := if uid ∈ l then l else l ++ [uid]
  if 5 < l1.length then l1.drop 1 else l1

/-- The `_active_users` list after a serialized sequence of
`set_user_active` calls starting from the module-initialisation state
`[]`. -/
def runMarks (ops : List Int) : List Int :=
  ops.foldl (fun l uid => set_user_active uid l) []

/-- A heap of Python list objects, for the aliasing claims about
`get_active_users`: addresses are natural numbers, the module-global
`_active_users` object lives at address 0, and `next` is the next fresh
address (invariantly positive). -/
structure Heap where
  mem : Nat → List Int
  next : Nat

/-- `set_user_active` acting on the heap: mutates the global list object
at address 0 in place. -/
def set_user_active_st (uid : Int) (h : Heap) : Heap :=
  { h with mem := Function.update h.mem 0 (set_user_active uid (h.mem 0)) }

/-- Embedding of `get_active_users()` from `app_latest/services.py`
(lines 138-146): `_active_users.copy()` allocates a fresh list object with
the same contents and returns its address. -/
def get_active_users_st (h : Heap) : Nat × Heap :=
  (h.next, { mem := Function.update h.mem h.next (h.mem 0), next := h.next + 1 })

/-- A name containing SQL metacharacters, `'; DROP TABLE users; --`, used
to exercise the injection-resistance property. -/
def injName : String :=
  String.singleton (Char.ofNat 39) ++ "; DROP TABLE users; --"

theorem hasBadControl_iff (s : String) :
    hasBadControl s = true ↔ ∃ c ∈ s.data, isControlBad c := by
  have h9 : Char.ofNat 9 = '\t' := by decide
  have h10 : Char.ofNat 10 = '\n' := by decide
  have h13 : Char.ofNat 13 = '\r' := by decide
  simp [hasBadControl, isControlBad, List.any_eq_true, h9, h10, h13, not_or, and_assoc]

/-- C2: `validate_name` implements the five rules of the (amended)
contract, in order, first failure wins — equal as functions to the
specification-side rule chain, whose control-character rule is stated as
an existential over the trimmed name's characters. -/
theorem c2_validate_rules (raw : PyVal) (maxLength : Nat) :
    validate_name raw maxLength = validateNameSpecAmended raw maxLength := by
  unfold validate_name validateNameSpecAmended
  by_cases h1 : pyFalsy raw
  · simp [h1]
  · by_cases h2 : raw.isStr
    · simp only [h1, h2, if_false, Bool.not_true, if_neg]
      by_cases h5 : hasBadControl (pyStrip raw.toStr)
      · simp [h1, h2, h5, (hasBadControl_iff _).mp h5]
      · have h5' : ¬ ∃ c ∈ (pyStrip raw.toStr).data, isControlBad c :=
          fun hex => h5 ((hasBadControl_iff _).mpr hex)
        simp [h1, h2, h5, h5']
    · simp [h1, h2]

/-- C2 counterexample: at the Python value `0` — which is neither absent,
null, nor empty before trimming, and is not textual — the code's
truth-value test `if not name` fires first and reports the missing-value
message "Name is required", whereas the claimed rule order reports
`WrongType`. -/
theorem c2_counterexample :
    validate_name (PyVal.int 0) 255 = .error .missingValue ∧
    validateNameSpecOrig (PyVal.int 0) 255 = .error .wrongType ∧
    ValidationError.missingValue ≠ ValidationError.wrongType :=
  ⟨rfl, rfl, by decide⟩

/-- C10: for a name that is the empty string, `None`, or not a string,
`add_user` raises `ValueError` before any connection is opened and leaves
the store unchanged. -/
theorem c10_defensive_precondition (name : PyVal) (db : DB)
    (h : name = PyVal.str "" ∨ name = PyVal.pynone ∨ name.isStr = false) :
    add_user name db = (.error .valueError, db, false) := by
  have hguard : (pyFalsy name || !name.isStr) = true := by
    rcases h with h | h | h
    · subst h; rfl
    · subst h; rfl
    · simp [h]
  simp [add_user, hguard]

theorem c10_witness :
    add_user PyVal.pynone ⟨["users"], [], 1, true⟩ =
      (.error .valueError, ⟨["users"], [], 1, true⟩, false) :=
  c10_defensive_precondition PyVal.pynone ⟨["users"], [], 1, true⟩ (Or.inr (Or.inl rfl))

/-- C3: when the connection is acquired, a block that completes without
error has its writes committed and the handle released; a block that
raises has its writes rolled back (the store reverts to its state at
connect), the original error re-raised, and the handle released; and the
handle is released on every exit path. -/
theorem c3_connection_scope {α : Type} (db : DB) (block : DB → Except PyErr (α × DB))
    (hc : db.connectOk = true) :
    (∀ a db', block db = .ok (a, db') → get_db_connection db block = ⟨.ok a, db', true⟩) ∧
    (∀ e, block db = .error e → get_db_connection db block = ⟨.error e, db, true⟩) ∧
    (get_db_connection db block).released = true := by
  refine ⟨?_, ?_, ?_⟩
  · intro a db' hb
    simp [get_db_connection, hc, hb]
  · intro e hb
    simp [get_db_connection, hc, hb]
  · cases hb : block db with
    | ok p => simp [get_db_connection, hc, hb]
    | error e => simp [get_db_connection, hc, hb]

theorem c3_witness :
    get_db_connection ⟨["users"], [], 1, true⟩
        (fun _ => (.error (.callerError 7) : Except PyErr (Int × DB))) =
      ⟨.error (.callerError 7), ⟨["users"], [], 1, true⟩, true⟩ :=
  (c3_connection_scope ⟨["users"], [], 1, true⟩ _ rfl).2.1 (.callerError 7) rfl

/-- C4: `get_user` returns absent without touching the store for non-int
and non-positive ids; returns absent (not an error) when no row matches;
and reports a store failure as a raised error, a distinct outcome from
absence. -/
theorem c4_absence_contract (db : DB) :
    (∀ v : PyVal, v.isIntLike = false → get_user v db = (.ok Option.none, false)) ∧
    (∀ n : Int, n ≤ 0 → get_user (.int n) db = (.ok Option.none, false)) ∧
    (∀ n : Int, 0 < n → db.connectOk = true → "users" ∈ db.tables →
      db.rows.find? (fun r => r.id == n) = Option.none →
      get_user (.int n) db = (.ok Option.none, true)) ∧
    (∀ n : Int, 0 < n → db.connectOk = false →
      get_user (.int n) db = (.error .storeError, true)) := by
  refine ⟨?_, ?_, ?_, ?_⟩
  · intro v hv
    simp [get_user, hv]
  · intro n hn
    simp [get_user, PyVal.isIntLike, PyVal.toInt, hn]
  · intro n hn hc ht hf
    simp [get_user, PyVal.isIntLike, PyVal.toInt, not_le.mpr hn, get_db_connection, hc,
      selectUserById, ht, hf]
  · intro n hn hc
    simp [get_user, PyVal.isIntLike, PyVal.toInt, not_le.mpr hn, get_db_connection, hc]

theorem c4_witness :
    get_user (PyVal.str "x") ⟨["users"], [], 1, true⟩ = (.ok Option.none, false) ∧
    get_user (PyVal.int 0) ⟨["users"], [], 1, true⟩ = (.ok Option.none, false) ∧
    get_user (PyVal.int (-5)) ⟨["users"], [], 1, true⟩ = (.ok Option.none, false) ∧
    get_user (PyVal.int 7) ⟨["users"], [], 1, true⟩ = (.ok Option.none, true) :=
  ⟨(c4_absence_contract _).1 (PyVal.str "x") rfl,
   (c4_absence_contract _).2.1 0 (by decide),
   (c4_absence_contract _).2.1 (-5) (by decide),
   (c4_absence_contract _).2.2.1 7 (by decide) rfl (by decide) rfl⟩

/-- C8: when schema initialization runs at startup and fails, the error
propagates out of `create_app` if `DEBUG` is unset; if `DEBUG` is set the
failure is tolerated and a configured application (with the blueprint
registered) is returned. -/
theorem c8_startup_failure (cfg : AppConfig) (db : DB) (e : PyErr)
    (hrun : cfg.initDbOnStart = true) (hfail : init_db db = .error e) :
    (cfg.debug = false → create_app cfg db = .error e) ∧
    (cfg.debug = true → create_app cfg db = .ok (⟨cfg, true⟩, db)) := by
  constructor <;> intro hd <;> simp [create_app, hrun, hfail, hd]

theorem c8_witness :
    create_app ⟨false, true⟩ ⟨[], [], 1, false⟩ = .error .storeError ∧
    create_app ⟨true, true⟩ ⟨[], [], 1, false⟩ =
      .ok (⟨⟨true, true⟩, true⟩, ⟨[], [], 1, false⟩) :=
  ⟨(c8_startup_failure ⟨false, true⟩ ⟨[], [], 1, false⟩ .storeError rfl rfl).1 rfl,
   (c8_startup_failure ⟨true, true⟩ ⟨[], [], 1, false⟩ .storeError rfl rfl).2 rfl⟩

/-- C7: on a reachable store, schema initialization succeeds, a second
call succeeds and changes nothing (so it can add no duplicate table), the
`users` table exists afterwards, and distinctness of table names is
preserved. -/
theorem c7_init_idempotent (db : DB) (hc : db.connectOk = true) :
    ∃ db₁, init_db db = .ok db₁ ∧ init_db db₁ = .ok db₁ ∧
      "users" ∈ db₁.tables ∧ (db.tables.Nodup → db₁.tables.Nodup) := by
  by_cases ht : "users" ∈ db.tables
  · exact ⟨db, by simp [init_db, get_db_connection, hc, createUsersTable, ht],
      by simp [init_db, get_db_connection, hc, createUsersTable, ht], ht, fun h => h⟩
  · refine ⟨{ db with tables := db.tables ++ ["users"] }, ?_, ?_, ?_, ?_⟩
    · simp [init_db, get_db_connection, hc, createUsersTable, ht]
    · simp [init_db, get_db_connection, hc, createUsersTable]
    · simp
    · intro h
      simp [List.nodup_append, h, ht]

theorem c7_witness :
    ∃ db₁, init_db ⟨[], [], 1, true⟩ = .ok db₁ ∧ init_db db₁ = .ok db₁ ∧
      "users" ∈ db₁.tables ∧ (([] : List String).Nodup → db₁.tables.Nodup) :=
  c7_init_idempotent ⟨[], [], 1, true⟩ rfl

/-- C1: creating a validated name (non-empty, trim-normalized, the name
treated purely as bound data) returns the next id `i`; reading that id
back returns a record whose `name` is the stored name verbatim and whose
`id` is `i`; and the `users` table still exists afterwards. -/
theorem c1_create_read_round_trip (db : DB) (n : String)
    (hc : db.connectOk = true) (ht : "users" ∈ db.tables) (hpos : 0 < db.nextId)
    (hids : ∀ r ∈ db.rows, r.id < db.nextId)
    (hne : n ≠ "") (htrim : pyStrip n = n) :
    ∃ i db', add_user (.str n) db = (.ok i, db', true) ∧
      get_user (.int i) db' = (.ok (some ⟨i, n⟩), true) ∧
      "users" ∈ db'.tables := by
  have hfind0 : db.rows.find? (fun r => r.id == db.nextId) = Option.none := by
    rw [List.find?_eq_none]
    intro r hr
    simp only [beq_iff_eq]
    exact (hids r hr).ne
  have hfind : ((db.rows ++ [⟨db.nextId, n⟩] : List UserRow).find?
      (fun r => r.id == db.nextId)) = some ⟨db.nextId, n⟩ := by
    rw [List.find?_append, hfind0]
    simp [List.find?]
  refine ⟨db.nextId,
    { db with rows := db.rows ++ [⟨db.nextId, n⟩], nextId := db.nextId + 1 }, ?_, ?_, ht⟩
  · simp [add_user, pyFalsy, PyVal.isStr, hne, PyVal.toStr, get_db_connection, hc,
      insertUser, ht, htrim]
  · simp [get_user, PyVal.isIntLike, PyVal.toInt, not_le.mpr hpos, get_db_connection, hc,
      selectUserById, ht, hfind]

theorem c1_witness :
    ∃ i db', add_user (.str injName) ⟨["users"], [], 1, true⟩ = (.ok i, db', true) ∧
      get_user (.int i) db' = (.ok (some ⟨i, injName⟩), true) ∧
      "users" ∈ db'.tables :=
  c1_create_read_round_trip ⟨["users"], [], 1, true⟩ injName rfl (by decide) (by decide)
    (by decide) (by decide) (by decide)

theorem mem_set_user_active {x a : Int} {l : List Int}
    (h : x ∈ set_user_active a l) : x ∈ l ∨ x = a := by
  unfold set_user_active at h
  by_cases hm : a ∈ l
  · simp only [if_pos hm] at h
    split at h
    · exact Or.inl (List.mem_of_mem_drop h)
    · exact Or.inl h
  · simp only [if_neg hm] at h
    split at h
    · rcases List.mem_append.mp (List.mem_of_mem_drop h) with h' | h'
      · exact Or.inl h'
      · exact Or.inr (List.mem_singleton.mp h')
    · rcases List.mem_append.mp h with h' | h'
      · exact Or.inl h'
      · exact Or.inr (List.mem_singleton.mp h')

theorem mem_foldl_marks :
    ∀ (ops l : List Int) (x : Int),
      x ∈ ops.foldl (fun l uid => set_user_active uid l) l → x ∈ l ∨ x ∈ ops := by
  intro ops
  induction ops with
  | nil => exact fun l x h => Or.inl h
  | cons a as ih =>
    intro l x h
    rcases ih _ x h with h' | h'
    · rcases mem_set_user_active h' with h'' | h''
      · exact Or.inl h''
      · exact Or.inr (by simp [h''])
    · exact Or.inr (List.mem_cons_of_mem _ h')

theorem mem_runMarks {x : Int} {ops : List Int} (h : x ∈ runMarks ops) : x ∈ ops := by
  rcases mem_foldl_marks ops [] x h with h' | h'
  · exact absurd h' (List.not_mem_nil x)
  · exact h'

theorem set_user_active_invariant (uid : Int) (l : List Int)
    (h : l.length ≤ 5 ∧ l.Nodup) :
    (set_user_active uid l).length ≤ 5 ∧ (set_user_active uid l).Nodup := by
  unfold set_user_active
  by_cases hm : uid ∈ l
  · simp only [if_pos hm]
    rw [if_neg (by omega)]
    exact h
  · simp only [if_neg hm]
    have hnd : (l ++ [uid]).Nodup :=
      List.nodup_append.mpr ⟨h.2, List.nodup_singleton uid, List.disjoint_singleton.mpr hm⟩
    split
    · exact ⟨by simp [List.length_drop]; omega,
        ((l ++ [uid]).drop_sublist 1).nodup hnd⟩
    · next h5 => exact ⟨by simp at h5 ⊢; omega, hnd⟩

theorem runMarks_invariant (ops : List Int) :
    (runMarks ops).length ≤ 5 ∧ (runMarks ops).Nodup := by
  unfold runMarks
  suffices h : ∀ l : List Int, l.length ≤ 5 ∧ l.Nodup →
      (ops.foldl (fun l uid => set_user_active uid l) l).length ≤ 5 ∧
      (ops.foldl (fun l uid => set_user_active uid l) l).Nodup by
    exact h [] ⟨by simp, List.nodup_nil⟩
  induction ops with
  | nil => exact fun l h => h
  | cons a as ih => exact fun l h => ih _ (set_user_active_invariant a l h)

/-- C5: starting from the empty collection, after any serialized sequence
of `set_user_active` calls the active list has at most 5 entries and no
duplicates; marking an id already present leaves it entirely unchanged;
and inserting a fresh id appends it, evicting the element at index 0
exactly when the append would exceed the capacity of 5. -/
theorem c5_active_set_invariant (ops : List Int) :
    (runMarks ops).length ≤ 5 ∧ (runMarks ops).Nodup ∧
    (∀ uid, uid ∈ runMarks ops → set_user_active uid (runMarks ops) = runMarks ops) ∧
    (∀ uid, uid ∉ runMarks ops →
      set_user_active uid (runMarks ops) =
        if 5 < (runMarks ops).length + 1 then (runMarks ops ++ [uid]).drop 1
        else runMarks ops ++ [uid]) := by
  obtain ⟨hlen, hnd⟩ := runMarks_invariant ops
  refine ⟨hlen, hnd, ?_, ?_⟩
  · intro uid hm
    unfold set_user_active
    rw [if_pos hm, if_neg (by omega)]
  · intro uid hm
    unfold set_user_active
    rw [if_neg hm]
    simp [List.length_append]

theorem c5_witness :
    set_user_active 2 (runMarks [1, 2, 3]) = runMarks [1, 2, 3] :=
  (c5_active_set_invariant [1, 2, 3]).2.2.1 2 (by decide)

theorem runMarks_append_singleton (as : List Int) (a : Int) :
    runMarks (as ++ [a]) = set_user_active a (runMarks as) := by
  unfold runMarks
  rw [List.foldl_append]
  rfl

theorem runMarks_nodup_eq (ops : List Int) (h : ops.Nodup) :
    runMarks ops = ops.drop (ops.length - 5) := by
  induction ops using List.reverseRecOn with
  | nil => rfl
  | append_singleton as a ih =>
    rw [List.nodup_append] at h
    have hna : a ∉ as := List.disjoint_singleton.mp h.2.2
    have heq := ih h.1
    have hmem : a ∉ runMarks as := fun hm => hna (mem_runMarks hm)
    rw [runMarks_append_singleton, heq]
    rw [heq] at hmem
    unfold set_user_active
    rw [if_neg hmem]
    by_cases h5 : 5 ≤ as.length
    · have hd : (as.drop (as.length - 5)).length = 5 := by
        rw [List.length_drop]; omega
      rw [if_pos (by simp [List.length_append, hd])]
      have hsplit : as ++ [a] = as.take (as.length - 5) ++ (as.drop (as.length - 5) ++ [a]) := by
        rw [← List.append_assoc, List.take_append_drop]
      have htk : (as.take (as.length - 5)).length = as.length - 5 := by
        rw [List.length_take]; omega
      have harith : (as ++ [a]).length - 5 = (as.take (as.length - 5)).length + 1 := by
        rw [htk, List.length_append]; simp; omega
      rw [harith, hsplit, List.drop_append 1]
    · have h0 : as.length - 5 = 0 := by omega
      have h0' : (as ++ [a]).length - 5 = 0 := by simp [List.length_append]; omega
      rw [if_neg (by rw [List.length_append]; simp [List.length_drop]; omega)]
      rw [h0, h0', List.drop_zero, List.drop_zero]

/-- C6: a serialized sequence of more than 5 `set_user_active` calls with
pairwise-distinct ids leaves the active list holding exactly the 5
most-recently-inserted ids, in insertion order. -/
theorem c6_fifo_eviction (ops : List Int) (hnd : ops.Nodup) (hlen : 5 < ops.length) :
    runMarks ops = ops.drop (ops.length - 5) ∧ (runMarks ops).length = 5 := by
  refine ⟨runMarks_nodup_eq ops hnd, ?_⟩
  rw [runMarks_nodup_eq ops hnd, List.length_drop]
  omega

theorem c6_witness : runMarks [1, 2, 3, 4, 5, 6, 7] = [3, 4, 5, 6, 7] := by
  rw [(c6_fifo_eviction [1, 2, 3, 4, 5, 6, 7] (by decide) (by decide)).1]
  decide

/-- C9: `get_active_users` returns the address of a fresh copy whose
contents equal the tracked ids at the moment of the call; a later
`set_user_active` (which mutates the global object at address 0) leaves
the returned copy unchanged; and writing to the returned copy leaves the
global object unchanged. -/
theorem c9_snapshot_copy (h : Heap) (hn : 0 < h.next) :
    ((get_active_users_st h).2.mem (get_active_users_st h).1 = h.mem 0) ∧
    (∀ uid, (set_user_active_st uid (get_active_users_st h).2).mem
        (get_active_users_st h).1 = (get_active_users_st h).2.mem (get_active_users_st h).1) ∧
    (∀ v, Function.update (get_active_users_st h).2.mem (get_active_users_st h).1 v 0 =
      (get_active_users_st h).2.mem 0) := by
  have hne : h.next ≠ 0 := by omega
  refine ⟨?_, ?_, ?_⟩
  · simp [get_active_users_st]
  · intro uid
    simp [get_active_users_st, set_user_active_st, Function.update_noteq hne]
  · intro v
    simp [get_active_users_st, Function.update_noteq (Ne.symm hne)]

theorem c9_witness :
    (set_user_active_st 7 (get_active_users_st ⟨fun _ => [], 1⟩).2).mem
        (get_active_users_st ⟨fun _ => [], 1⟩).1 =
      (get_active_users_st ⟨fun _ => [], 1⟩).2.mem (get_active_users_st ⟨fun _ => [], 1⟩).1 :=
  (c9_snapshot_copy ⟨fun _ => [], 1⟩ (by decide)).2.1 7

end SecureApi
